import Mathlib

/-!
Shallow embedding of the Arduino OBD-II scan-tool simulator (src/odbsim.ino).

Modelling conventions:
* Arduino `String` values (ASCII byte strings) are Lean `String`s; the
  library operations `startsWith`, `substring(2)`, `toUpperCase`, `+` and
  `+=` are modelled character-wise (`strStartsWith`, `substring2`,
  `strToUpper`, `++`, `String.push`).
* The AVR floating-point types (`float` and `double`, both 32-bit on this
  target) only ever hold integer values in this program (every assignment
  to them is an integer constant or an integer-valued sensor reading), and
  their arithmetic is modelled as exact arithmetic on those integers.  The
  only non-integral intermediate value is the fuel-level formula
  `((float) value / 100.0) * 255.0`, whose exact value is the rational
  `value * 255 / 100`; the C cast `(int)` truncates it toward zero, which
  is `Int.tdiv (value * 255) 100`.  (At every value this firmware stores,
  in particular fuel 89, 32-bit float evaluation truncates to the same
  integer as exact evaluation.)
* `unsigned long` is 32 bits, `unsigned int` is 16 bits, `int` is 16 bits
  signed and `byte` is 8 bits; arithmetic on them is reduced modulo the
  corresponding width at the points where the C program stores a value.
* The two `micros()` calls of one refresh cycle are modelled as the single
  instant `now`; `analogRead(5)` is the external input `analog5`; unsigned
  division by an elapsed time of zero is modelled as zero.
* Serial output (`BtSerial.println`) is collected as the list of emitted
  lines, in order.
-/

namespace OdbSim

/-- Device description string (line 81). -/
def DEVICE_DESCRIPTION : String := "OBDII Arduino Simulator"

/-- Firmware version string (line 82). -/
def VERSION : String := DEVICE_DESCRIPTION ++ " " ++ "v1.0"

/-- Acknowledgement reply (line 83). -/
def OK : String := "OK"

/-- Idle prompt (line 84). -/
def PROMPT : String := ">"

/-- Carriage return (line 87). -/
def CR : Char := '\r'

/-- Line feed (line 88). -/
def LF : Char := '\n'

/-- Space (line 89). -/
def SPACE : Char := ' '

/-- AT command request prefix (line 92). -/
def AT_REQ : String := "AT"

/-- OBDII Mode 1 request prefix (line 93). -/
def MODE_01_REQ : String := "01"

/-- OBDII Mode 21 request prefix (line 94). -/
def MODE_21_REQ : String := "21"

/-- Mode 1 response tag (line 97). -/
def MODE_01_RSP : String := "41"

/-- Mode 21 response tag (line 98). -/
def MODE_21_RSP : String := "61"

/-- Mode 1 PID sub-identifiers (lines 101-108). -/
def MODE_1_SUPPORTED_PIDS : String := "00"

def MODE_1_ENG_COOLANT_TEMP : String := "05"

def MODE_1_IN_MANIFLD_PRESS_ABS : String := "0B"

def MODE_1_ENG_RPM : String := "0C"

def MODE_1_VEHICLE_SPEED : String := "0D"

def MODE_1_FUEL_TANK_LVL_IN : String := "2F"

def MODE_1_AMBIENT_AIR_TEMP : String := "46"

def MODE_1_ENG_OIL_TEMP : String := "5C"

/-- The simulator's global mutable sensor state (lines 56-73). -/
structure SimState where
  rpm_pulse_count : Nat
  rpm : Nat
  time_old : Nat
  eng_rpm : Int
  ambient_air_temp : Int
  eng_oil_temp : Int
  eng_coolant_temp : Int
  vehicle_speed : Int
  in_manifld_press_abs : Int
  fuel_percentage : Int
  vehicle_speed_2 : Int
  analog_in_5 : Int
  eng_oil_press : Int
  deriving DecidableEq, Repr

/-- Power-on state: C++ globals are zero-initialised, except the explicit
initialiser `eng_rpm = 5400` (line 62). -/
def initialState : SimState where
  rpm_pulse_count := 0
  rpm := 0
  time_old := 0
  eng_rpm := 5400
  ambient_air_temp := 0
  eng_oil_temp := 0
  eng_coolant_temp := 0
  vehicle_speed := 0
  in_manifld_press_abs := 0
  fuel_percentage := 0
  vehicle_speed_2 := 0
  analog_in_5 := 0
  eng_oil_press := 0

/-- Conversion of a floating value (integral here, see the header) to the
32-bit `unsigned long` parameter of `replyOBD2` (line 345); every value the
program converts is non-negative and in range. -/
def doubleToULong (q : Int) : Nat := q.toNat % 4294967296

/-- Storing a 16-bit quantity into the AVR's 16-bit signed `int`. -/
def int16OfNat (n : Nat) : Int :=
  if n % 65536 < 32768 then ((n % 65536 : Nat) : Int) else ((n % 65536 : Nat) : Int) - 65536

/-- One hexadecimal digit as produced by `ultoa` (the Arduino
`String(value, HEX)` constructor): lowercase letters for 10..15. -/
def hexDigit (n : Nat) : Char :=
  if n < 10 then Char.ofNat (48 + n) else Char.ofNat (87 + n)

/-- Digit-production loop of `String(value, HEX)` / `ultoa`: one iteration
per hex digit, most significant digit first in the result.  `fuel` bounds
the iteration count; `fuel = n` always suffices since `n / 16 < n`. -/
def natToHexAux : Nat → Nat → List Char → List Char
  | 0, _, acc => acc
  | fuel + 1, n, acc =>
    if n = 0 then acc else natToHexAux fuel (n / 16) (hexDigit (n % 16) :: acc)

/-- `String(value, HEX)` (line 451): lowercase hexadecimal representation,
with "0" for zero. -/
def natToHex (n : Nat) : String :=
  if n = 0 then "0" else ⟨natToHexAux n n []⟩

/-- Zero-prepending loop of `toHexReply` (lines 459-462): prepend one ASCII
zero while the string is shorter than the target width.  `fuel` bounds the
iteration count; `fuel = width` always suffices. -/
def padZeroAux : Nat → Nat → List Char → List Char
  | 0, _, s => s
  | fuel + 1, width, s =>
    if s.length < width then padZeroAux fuel width ('0' :: s) else s

/-- The fully applied zero-prepending loop. -/
def padZero (width : Nat) (s : List Char) : List Char := padZeroAux width width s

/-- `toHexReply` (lines 445-466): the hex string of `value` padded with
zeroes up to the specified width in bytes (2 hex characters per byte);
a width above `MAX_REPLY_LEN = 4` bytes receives no padding. -/
def toHexReply (value : Nat) (width : Nat) : String :=
  let value_hex := natToHex value
  if width ≤ 4 then ⟨padZero (2 * width) value_hex.data⟩ else value_hex

/-- `replyOBD2` (lines 345-353): the emitted data-reply line, mode response
tag, echoed PID, then the hex payload. -/
def replyOBD2 (mode_response pid : String) (value : Nat) (reply_bytes : Nat) : String :=
  mode_response ++ pid ++ toHexReply value reply_bytes

/-- Arduino `String::startsWith`, character-wise. -/
def strStartsWith (s p : String) : Bool := s.data.take p.data.length == p.data

/-- Arduino `request.substring(2)`: everything after the 2-character
request-family code. -/
def substring2 (s : String) : String := ⟨s.data.drop 2⟩

/-- Arduino `String::toUpperCase` (ASCII). -/
def strToUpper (s : String) : String := ⟨s.data.map Char.toUpper⟩

/-- The Mode 1 PID table of `processRequest` (lines 185-239): transformed
value (`after_formula`) and reply width in bytes for each standard PID,
with the `(0, 1)` fallback for an unhandled PID. -/
def mode01Table (st : SimState) (pid : String) : Int × Nat :=
  if pid = MODE_1_SUPPORTED_PIDS then (142249984, 4)
  else if pid = MODE_1_ENG_COOLANT_TEMP then (st.eng_coolant_temp + 40, 1)
  else if pid = MODE_1_ENG_RPM then (st.eng_rpm * 4, 2)
  else if pid = MODE_1_VEHICLE_SPEED then (st.vehicle_speed, 1)
  else if pid = MODE_1_IN_MANIFLD_PRESS_ABS then (st.in_manifld_press_abs, 1)
  else if pid = MODE_1_FUEL_TANK_LVL_IN then
    (Int.tdiv (st.fuel_percentage * 255) 100, 1)
  else if pid = MODE_1_AMBIENT_AIR_TEMP then (st.ambient_air_temp + 40, 1)
  else if pid = MODE_1_ENG_OIL_TEMP then (st.eng_oil_temp + 40, 1)
  else (0, 1)

/-- The Mode 21 PID table (lines 254-268).  For a PID outside the table no
branch assigns the locals `after_formula` and `reply_bytes`; their junk
(uninitialised) contents are the parameters `junk_after_formula` and
`junk_reply_bytes`. -/
def mode21Table (st : SimState) (pid : String) (junk_after_formula : Int)
    (junk_reply_bytes : Nat) : Int × Nat :=
  if pid = "13" then (st.vehicle_speed_2, 2)
  else if pid = "14" then (st.eng_oil_press, 1)
  else if pid = "15" then (st.analog_in_5, 2)
  else (junk_after_formula, junk_reply_bytes)

/-- `initSensors` (lines 429-437): reset of the revolution counters
(`attachInterrupt` is pin configuration and has no state in the model). -/
def initSensors (st : SimState) : SimState :=
  { st with rpm_pulse_count := 0, rpm := 0, time_old := 0 }

/-- The AT-command branch of `processRequest` (lines 283-336): resulting
state and reply lines (the idle prompt is appended by the caller). -/
def processAT (st : SimState) (ATCommand : String) : SimState × List String :=
  if ATCommand = "Z" then (initSensors st, [VERSION, OK])
  else if ATCommand = "E0" then (st, [OK])
  else if ATCommand = "M0" then (st, [OK])
  else if ATCommand = "L0" then (st, [OK])
  else if ATCommand = "ST62" then (st, [OK])
  else if ATCommand = "S0" then (st, [OK])
  else if ATCommand = "H0" then (st, [OK])
  else if ATCommand = "H1" then (st, [OK])
  else if ATCommand = "AT1" then (st, [OK])
  else if ATCommand = "@1" then (st, [DEVICE_DESCRIPTION])
  else if ATCommand = "I" then (st, [VERSION])
  else if ATCommand = "SP0" then (st, [OK])
  else if ATCommand = "DPN" then (st, ["1"])
  else if ATCommand = "RV" then (st, ["12.5"])
  else if ATCommand = "PC" then (st, [OK])
  else (st, [])

/-- The request classification of `processRequest` (lines 176-337): prefix
dispatch producing the state and the reply lines before the idle prompt. -/
def dispatchRequest (st : SimState) (request : String) (junk_after_formula : Int)
    (junk_reply_bytes : Nat) : SimState × List String :=
  if strStartsWith request MODE_01_REQ then
    let pid := substring2 request
    let p := mode01Table st pid
    (st, [replyOBD2 MODE_01_RSP pid (doubleToULong p.1) p.2])
  else if strStartsWith request MODE_21_REQ then
    let pid := substring2 request
    let p := mode21Table st pid junk_after_formula junk_reply_bytes
    (st, [replyOBD2 MODE_21_RSP pid (doubleToULong p.1) p.2])
  else if strStartsWith request AT_REQ then
    processAT st (substring2 request)
  else (st, [])

/-- `processRequest` (lines 163-342): dispatch on the request line, then the
unconditional trailing idle prompt (line 339). -/
def processRequest (st : SimState) (request : String) (junk_after_formula : Int)
    (junk_reply_bytes : Nat) : SimState × List String :=
  let r := dispatchRequest st request junk_after_formula junk_reply_bytes
  (r.1, r.2 ++ [PROMPT])

/-- `updateSensorValues` (lines 399-426).  Both `micros()` calls of one
cycle are modelled as the single instant `now`, reduced to the 32-bit range
of `micros()`; `analogRead(5)` is the external input `analog5`. -/
def updateSensorValues (st : SimState) (now : Nat) (analog5 : Nat) : SimState :=
  let now32 := now % 4294967296
  let st1 :=
    if st.rpm_pulse_count ≥ 30 then
      let elapsed := (now32 + 4294967296 - st.time_old) % 4294967296
      let rpm1 := (30 * 1000 * 1000 / elapsed * st.rpm_pulse_count) % 4294967296 % 65536
      { st with
        rpm := rpm1
        time_old := now32
        rpm_pulse_count := 0
        eng_rpm := int16OfNat rpm1 }
    else st
  { st1 with
    eng_coolant_temp := 93
    vehicle_speed := 155
    in_manifld_press_abs := 200
    ambient_air_temp := 22
    eng_oil_temp := 109
    fuel_percentage := 89
    eng_oil_press := 65
    analog_in_5 := (analog5 : Int)
    vehicle_speed_2 := 312 }

/-- `onRpm` (lines 440-442): the interrupt handler increments the 8-bit
pulse counter. -/
def onRpm (st : SimState) : SimState :=
  { st with rpm_pulse_count := (st.rpm_pulse_count + 1) % 256 }

/-- One iteration of the serial-read part of `loop` (lines 139-155): the
buffer after consuming one character, together with the normalised request
line handed to `processRequest` if the character completed one. -/
def lexStep (OBDRequest : String) (c : Char) : String × List String :=
  if (c = LF ∨ c = CR) ∧ OBDRequest.length > 0 then
    ("", [strToUpper OBDRequest])
  else if c ≠ SPACE ∧ c ≠ LF ∧ c ≠ CR then
    (OBDRequest.push c, [])
  else (OBDRequest, [])

/-- Folding `lexStep` over an arriving byte sequence, collecting the
completed request lines in order. -/
def lexRun (buf : String) : List Char → String × List String
  | [] => (buf, [])
  | c :: cs =>
    let s := lexStep buf c
    let r := lexRun s.1 cs
    (r.1, s.2 ++ r.2)

/-- The state after one refresh cycle from power-on: every placeholder
value assigned, `eng_rpm` still at its initial 5400 (no pulses seen). -/
def refreshedState : SimState := updateSensorValues initialState 1000000 500

/-- A refresh-time state in which the interrupt handler has delivered
exactly the threshold number of pulses. -/
def pulse30State : SimState := { initialState with rpm_pulse_count := 30 }

theorem string_length_eq (s : String) : s.length = s.data.length := rfl

theorem natToHexAux_zero (fuel : Nat) (acc : List Char) : natToHexAux fuel 0 acc = acc := by
  cases fuel <;> simp [natToHexAux]

theorem natToHexAux_length_le (fuel : Nat) :
    ∀ (n : Nat) (acc : List Char) (k : Nat), n ≤ fuel → n < 16 ^ k → 0 < k →
      (natToHexAux fuel n acc).length ≤ k + acc.length := by
  induction fuel with
  | zero =>
    intro n acc k hf hv hk
    simp [natToHexAux]
  | succ f ih =>
    intro n acc k hf hv hk
    by_cases hn : n = 0
    · subst hn
      simp [natToHexAux]
    · rw [natToHexAux.eq_2, if_neg hn]
      by_cases hdiv : n / 16 = 0
      · rw [hdiv, natToHexAux_zero]
        simp
        omega
      · obtain ⟨j, rfl⟩ : ∃ j, k = j + 1 := ⟨k - 1, by omega⟩
        have h16 : 16 ≤ n := by omega
        have hj : 0 < j := by
          rcases Nat.eq_zero_or_pos j with h0 | h0
          · subst h0
            simp at hv
            omega
          · exact h0
        have hdivlt : n / 16 < 16 ^ j := by
          rw [Nat.div_lt_iff_lt_mul (by omega : 0 < 16)]
          calc n < 16 ^ (j + 1) := hv
            _ = 16 ^ j * 16 := by rw [pow_succ]
        have := ih (n / 16) (hexDigit (n % 16) :: acc) j (by omega) hdivlt hj
        simp at this
        simp
        omega

theorem natToHex_length_le (v k : Nat) (hk : 0 < k) (hv : v < 16 ^ k) :
    (natToHex v).data.length ≤ k := by
  unfold natToHex
  by_cases hv0 : v = 0
  · rw [if_pos hv0]
    have : ("0" : String).data.length = 1 := rfl
    omega
  · rw [if_neg hv0]
    have := natToHexAux_length_le v v [] k le_rfl hv hk
    simpa using this

theorem padZeroAux_eq (fuel : Nat) :
    ∀ (width : Nat) (s : List Char), width ≤ s.length + fuel →
      padZeroAux fuel width s = List.replicate (width - s.length) '0' ++ s := by
  induction fuel with
  | zero =>
    intro width s h
    have h0 : width - s.length = 0 := by omega
    simp [padZeroAux, h0]
  | succ f ih =>
    intro width s h
    by_cases hlt : s.length < width
    · rw [padZeroAux.eq_2, if_pos hlt, ih width ('0' :: s) (by simp; omega)]
      have h1 : width - s.length = (width - ('0' :: s).length) + 1 := by simp; omega
      rw [h1, List.replicate_succ', List.append_assoc, List.singleton_append]
    · rw [padZeroAux.eq_2, if_neg hlt]
      have h0 : width - s.length = 0 := by omega
      simp [h0]

theorem padZero_eq (width : Nat) (s : List Char) :
    padZero width s = List.replicate (width - s.length) '0' ++ s :=
  padZeroAux_eq width width s (by omega)

theorem toHexReply_pad (v w : Nat) (hw : w ≤ 4) :
    toHexReply v w
      = ⟨List.replicate (2 * w - (natToHex v).data.length) '0' ++ (natToHex v).data⟩ := by
  simp only [toHexReply]
  rw [if_pos hw, padZero_eq]

theorem toHexReply_length (v w : Nat) (h1 : 1 ≤ w) (h2 : w ≤ 4) (hv : v < 16 ^ (2 * w)) :
    (toHexReply v w).length = 2 * w := by
  have hlen : (natToHex v).data.length ≤ 2 * w := natToHex_length_le v (2 * w) (by omega) hv
  rw [toHexReply_pad v w h2]
  show (List.replicate (2 * w - (natToHex v).data.length) '0' ++ (natToHex v).data).length = 2 * w
  have hd := string_length_eq (natToHex v)
  simp
  omega

/-- C1: every supported standard (Mode 01) PID request is answered by a
data reply tagged "41" that echoes the PID, whose payload is computed by
the fixed transform table (constant 4-byte supported-PID bitmap; the three
temperatures as stored value + 40 at 1 byte; engine speed as stored value
times 4 at 2 bytes; vehicle speed and intake-manifold pressure unchanged
at 1 byte; fuel level rescaled from 0..100 to 0..255 with integer
truncation at 1 byte), and the payload string has length exactly twice the
reply width (for stored values within the encodable range). -/
theorem mode01_transform_table (st : SimState) (jaf : Int) (jrb : Nat)
    (hcool : doubleToULong (st.eng_coolant_temp + 40) < 256)
    (hrpm : doubleToULong (st.eng_rpm * 4) < 65536)
    (hspd : doubleToULong st.vehicle_speed < 256)
    (hman : doubleToULong st.in_manifld_press_abs < 256)
    (hfuel : doubleToULong (Int.tdiv (st.fuel_percentage * 255) 100) < 256)
    (hamb : doubleToULong (st.ambient_air_temp + 40) < 256)
    (hoil : doubleToULong (st.eng_oil_temp + 40) < 256) :
    ((processRequest st ("01" ++ "00") jaf jrb).2
        = ["41" ++ "00" ++ toHexReply 142249984 4, PROMPT]
      ∧ toHexReply 142249984 4 = "087a9000") ∧
    ((processRequest st ("01" ++ "05") jaf jrb).2
        = ["41" ++ "05" ++ toHexReply (doubleToULong (st.eng_coolant_temp + 40)) 1, PROMPT]
      ∧ (toHexReply (doubleToULong (st.eng_coolant_temp + 40)) 1).length = 2) ∧
    ((processRequest st ("01" ++ "0C") jaf jrb).2
        = ["41" ++ "0C" ++ toHexReply (doubleToULong (st.eng_rpm * 4)) 2, PROMPT]
      ∧ (toHexReply (doubleToULong (st.eng_rpm * 4)) 2).length = 4) ∧
    ((processRequest st ("01" ++ "0D") jaf jrb).2
        = ["41" ++ "0D" ++ toHexReply (doubleToULong st.vehicle_speed) 1, PROMPT]
      ∧ (toHexReply (doubleToULong st.vehicle_speed) 1).length = 2) ∧
    ((processRequest st ("01" ++ "0B") jaf jrb).2
        = ["41" ++ "0B" ++ toHexReply (doubleToULong st.in_manifld_press_abs) 1, PROMPT]
      ∧ (toHexReply (doubleToULong st.in_manifld_press_abs) 1).length = 2) ∧
    ((processRequest st ("01" ++ "2F") jaf jrb).2
        = ["41" ++ "2F" ++ toHexReply (doubleToULong (Int.tdiv (st.fuel_percentage * 255) 100)) 1,
           PROMPT]
      ∧ (toHexReply (doubleToULong (Int.tdiv (st.fuel_percentage * 255) 100)) 1).length = 2) ∧
    ((processRequest st ("01" ++ "46") jaf jrb).2
        = ["41" ++ "46" ++ toHexReply (doubleToULong (st.ambient_air_temp + 40)) 1, PROMPT]
      ∧ (toHexReply (doubleToULong (st.ambient_air_temp + 40)) 1).length = 2) ∧
    ((processRequest st ("01" ++ "5C") jaf jrb).2
        = ["41" ++ "5C" ++ toHexReply (doubleToULong (st.eng_oil_temp + 40)) 1, PROMPT]
      ∧ (toHexReply (doubleToULong (st.eng_oil_temp + 40)) 1).length = 2) := by
  refine ⟨⟨rfl, by decide⟩, ⟨rfl, ?_⟩, ⟨rfl, ?_⟩, ⟨rfl, ?_⟩, ⟨rfl, ?_⟩, ⟨rfl, ?_⟩,
    ⟨rfl, ?_⟩, ⟨rfl, ?_⟩⟩
  · simpa using toHexReply_length _ 1 le_rfl (by omega) (by simpa using hcool)
  · simpa using toHexReply_length _ 2 (by omega) (by omega) (by simpa using hrpm)
  · simpa using toHexReply_length _ 1 le_rfl (by omega) (by simpa using hspd)
  · simpa using toHexReply_length _ 1 le_rfl (by omega) (by simpa using hman)
  · simpa using toHexReply_length _ 1 le_rfl (by omega) (by simpa using hfuel)
  · simpa using toHexReply_length _ 1 le_rfl (by omega) (by simpa using hamb)
  · simpa using toHexReply_length _ 1 le_rfl (by omega) (by simpa using hoil)

theorem mode01_transform_table_witness :
    (processRequest refreshedState ("01" ++ "05") 0 0).2
        = ["41" ++ "05" ++ toHexReply (doubleToULong (refreshedState.eng_coolant_temp + 40)) 1,
           PROMPT]
      ∧ (toHexReply (doubleToULong (refreshedState.eng_coolant_temp + 40)) 1).length = 2 :=
  (mode01_transform_table refreshedState 0 0 (by decide) (by decide) (by decide) (by decide)
    (by decide) (by decide) (by decide)).2.1

/-- C2: the serial lexer appends every byte that is not a space, carriage
return or line feed to the buffer in arrival order; a terminator arriving
with a non-empty buffer flushes exactly one upper-cased line and empties
the buffer; a terminator (or space) arriving otherwise emits nothing; and
on the sample inputs the byte streams "0105" + CR, with and without a
leading stray space, both yield the single normalised line "0105", while
CR LF on an empty buffer yields no line. -/
theorem lexer_line_accumulation :
    (∀ (buf : String) (c : Char),
      (c ≠ SPACE ∧ c ≠ LF ∧ c ≠ CR → lexStep buf c = (buf.push c, [])) ∧
      ((c = LF ∨ c = CR) → 0 < buf.length → lexStep buf c = ("", [strToUpper buf])) ∧
      ((c = LF ∨ c = CR) → buf.length = 0 → lexStep buf c = (buf, [])) ∧
      (c = SPACE → lexStep buf c = (buf, []))) ∧
    lexRun "" "0105\r".data = ("", ["0105"]) ∧
    lexRun "" " 0105\r".data = ("", ["0105"]) ∧
    lexRun "" "\r\n".data = ("", []) := by
  refine ⟨?_, by decide, by decide, by decide⟩
  intro buf c
  refine ⟨?_, ?_, ?_, ?_⟩
  · intro h
    have hno : ¬((c = LF ∨ c = CR) ∧ buf.length > 0) := by
      rintro ⟨hlf | hcr, -⟩
      · exact h.2.1 hlf
      · exact h.2.2 hcr
    unfold lexStep
    rw [if_neg hno, if_pos h]
  · intro hterm hlen
    unfold lexStep
    rw [if_pos ⟨hterm, hlen⟩]
  · intro hterm hlen
    have hno1 : ¬((c = LF ∨ c = CR) ∧ buf.length > 0) := by
      rintro ⟨-, hpos⟩
      omega
    have hno2 : ¬(c ≠ SPACE ∧ c ≠ LF ∧ c ≠ CR) := by
      rintro ⟨-, h2, h3⟩
      rcases hterm with hlf | hcr
      · exact h2 hlf
      · exact h3 hcr
    unfold lexStep
    rw [if_neg hno1, if_neg hno2]
  · intro hsp
    subst hsp
    have hno1 : ¬((SPACE = LF ∨ SPACE = CR) ∧ buf.length > 0) := by
      rintro ⟨hlf | hcr, -⟩
      · exact absurd hlf (by decide)
      · exact absurd hcr (by decide)
    have hno2 : ¬(SPACE ≠ SPACE ∧ SPACE ≠ LF ∧ SPACE ≠ CR) := by
      rintro ⟨h1, -, -⟩
      exact h1 rfl
    unfold lexStep
    rw [if_neg hno1, if_neg hno2]

theorem lexer_line_accumulation_witness :
    lexStep "0105" CR = ("", [strToUpper "0105"]) :=
  (lexer_line_accumulation.1 "0105" CR).2.1 (Or.inr rfl) (by decide)

/-- C3: `toHexReply` on any value and any width in 1..4 returns the hex
representation left-padded with ASCII zeroes to length exactly twice the
width whenever the natural hex representation is no longer than that, and
returns the natural representation unchanged (never truncated, never
rejected) when it is longer. -/
theorem toHexReply_pad_or_passthrough (v w : Nat) (h1 : 1 ≤ w) (h2 : w ≤ 4) :
    ((natToHex v).length ≤ 2 * w →
      toHexReply v w
          = ⟨List.replicate (2 * w - (natToHex v).length) '0' ++ (natToHex v).data⟩ ∧
      (toHexReply v w).length = 2 * w) ∧
    (2 * w < (natToHex v).length → toHexReply v w = natToHex v) := by
  rw [string_length_eq]
  constructor
  · intro hle
    refine ⟨toHexReply_pad v w h2, ?_⟩
    rw [toHexReply_pad v w h2]
    show (List.replicate (2 * w - (natToHex v).data.length) '0' ++ (natToHex v).data).length
        = 2 * w
    have hd := string_length_eq (natToHex v)
    simp
    omega
  · intro hgt
    rw [toHexReply_pad v w h2]
    have h0 : 2 * w - (natToHex v).data.length = 0 := by omega
    rw [h0]
    rfl

theorem toHexReply_pad_or_passthrough_witness :
    toHexReply 227 1 = ⟨List.replicate (2 * 1 - (natToHex 227).length) '0' ++ (natToHex 227).data⟩
      ∧ (toHexReply 227 1).length = 2 * 1 :=
  (toHexReply_pad_or_passthrough 227 1 (by decide) (by decide)).1 (by decide)

/-- C4: a request whose prefix is none of "01", "21" and "AT" produces no
data reply, only the idle prompt; and every processed request of any kind
has the idle prompt as its last emitted line. -/
theorem unrecognized_request_prompt_only :
    (∀ (st : SimState) (request : String) (jaf : Int) (jrb : Nat),
      strStartsWith request MODE_01_REQ = false →
      strStartsWith request MODE_21_REQ = false →
      strStartsWith request AT_REQ = false →
      (processRequest st request jaf jrb).2 = [PROMPT]) ∧
    (∀ (st : SimState) (request : String) (jaf : Int) (jrb : Nat),
      ((processRequest st request jaf jrb).2).getLast? = some PROMPT) := by
  constructor
  · intro st request jaf jrb h1 h2 h3
    simp [processRequest, dispatchRequest, h1, h2, h3]
  · intro st request jaf jrb
    show ((dispatchRequest st request jaf jrb).2 ++ [PROMPT]).getLast? = some PROMPT
    simp

theorem unrecognized_request_prompt_only_witness :
    (processRequest initialState "99AA" 0 0).2 = [PROMPT] :=
  unrecognized_request_prompt_only.1 initialState "99AA" 0 0 (by decide) (by decide) (by decide)

/-- C5 fails on the code: with stored fuel percentage 89.0 the payload byte
is the truncation toward zero of 89/100 times 255, that is of 226.95,
which is 226 and is emitted as the lowercase hex string "e2"; it is not
227 and not the string "E3" as the claim states. -/
theorem fuel_payload_not_E3 :
    (processRequest refreshedState ("01" ++ "2F") 0 0).2 = ["41" ++ "2F" ++ "e2", PROMPT] ∧
    Int.tdiv (89 * 255) 100 = 226 ∧
    ("41" ++ "2F" ++ "e2" : String) ≠ "41" ++ "2F" ++ "E3" := by
  refine ⟨by decide, by decide, by decide⟩

/-- C5 amended: processing the standard fuel-level request (Mode 01, PID
"2F") when the stored fuel percentage is 89.0 produces the 1-byte payload
truncate-toward-zero(89/100 times 255) = 226, emitted as the lowercase hex
string "e2". -/
theorem fuel_payload_e2 (st : SimState) (jaf : Int) (jrb : Nat)
    (hfuel : st.fuel_percentage = 89) :
    (processRequest st ("01" ++ "2F") jaf jrb).2 = ["41" ++ "2F" ++ "e2", PROMPT] := by
  have e : (processRequest st ("01" ++ "2F") jaf jrb).2
      = ["41" ++ "2F" ++ toHexReply (doubleToULong (Int.tdiv (st.fuel_percentage * 255) 100)) 1,
         PROMPT] := rfl
  rw [e, hfuel]
  decide

theorem fuel_payload_e2_witness :
    (processRequest refreshedState ("01" ++ "2F") 1 1).2 = ["41" ++ "2F" ++ "e2", PROMPT] :=
  fuel_payload_e2 refreshedState 1 1 (by decide)

/-- C6: the control request "ATZ" re-initialises the revolution counters
(pulse count, computed rpm, elapsed-time reference) and produces exactly
two reply lines before the idle prompt: the version string, then "OK". -/
theorem atz_reset_and_replies (st : SimState) (jaf : Int) (jrb : Nat) :
    processRequest st ("AT" ++ "Z") jaf jrb
      = ({ st with rpm_pulse_count := 0, rpm := 0, time_old := 0 },
         [VERSION, OK, PROMPT]) := rfl

/-- C7: a Mode 01 request whose PID is none of the eight supported
sub-identifiers is answered with encoded numeric zero at width one byte: a
"41"-tagged data reply echoing the PID with payload "00". -/
theorem mode01_unknown_pid_zero (st : SimState) (pid : String) (jaf : Int) (jrb : Nat)
    (h00 : pid ≠ MODE_1_SUPPORTED_PIDS) (h05 : pid ≠ MODE_1_ENG_COOLANT_TEMP)
    (h0B : pid ≠ MODE_1_IN_MANIFLD_PRESS_ABS) (h0C : pid ≠ MODE_1_ENG_RPM)
    (h0D : pid ≠ MODE_1_VEHICLE_SPEED) (h2F : pid ≠ MODE_1_FUEL_TANK_LVL_IN)
    (h46 : pid ≠ MODE_1_AMBIENT_AIR_TEMP) (h5C : pid ≠ MODE_1_ENG_OIL_TEMP) :
    (processRequest st ("01" ++ pid) jaf jrb).2 = ["41" ++ pid ++ "00", PROMPT] := by
  have e : (processRequest st ("01" ++ pid) jaf jrb).2
      = [replyOBD2 MODE_01_RSP pid (doubleToULong (mode01Table st pid).1)
          (mode01Table st pid).2, PROMPT] := rfl
  rw [e]
  unfold mode01Table
  rw [if_neg h00, if_neg h05, if_neg h0C, if_neg h0D, if_neg h0B, if_neg h2F,
    if_neg h46, if_neg h5C]
  rfl

theorem mode01_unknown_pid_zero_witness :
    (processRequest initialState ("01" ++ "FF") 0 0).2 = ["41" ++ "FF" ++ "00", PROMPT] :=
  mode01_unknown_pid_zero initialState "FF" 0 0 (by decide) (by decide) (by decide) (by decide)
    (by decide) (by decide) (by decide) (by decide)

/-- C8: every recognised-but-unimplemented control token is acknowledged
with "OK" exactly as a successful command, and no simulator state is
changed by it. -/
theorem at_not_implemented_ok (st : SimState) (tok : String) (jaf : Int) (jrb : Nat)
    (h : tok ∈ (["E0", "M0", "L0", "ST62", "S0", "H0", "H1", "AT1", "SP0"] : List String)) :
    processRequest st ("AT" ++ tok) jaf jrb = (st, [OK, PROMPT]) := by
  fin_cases h <;> rfl

theorem at_not_implemented_ok_witness :
    processRequest initialState ("AT" ++ "E0") 0 0 = (initialState, [OK, PROMPT]) :=
  at_not_implemented_ok initialState "E0" 0 0 (by decide)

/-- C9 as stated fails on the code: with 31 pulses observed (the counter is
incremented asynchronously, so values above the threshold are observable)
and an elapsed time of 1,000,000 microseconds, the code multiplies by the
observed pulse count and computes 30 x 31 = 930, while the claimed formula
(threshold x 1,000,000 / elapsed) x threshold gives 30 x 30 = 900. -/
theorem rpm_recompute_not_threshold_squared :
    (updateSensorValues { initialState with rpm_pulse_count := 31 } 1000000 0).eng_rpm = 930 ∧
    30 * 1000 * 1000 / 1000000 * 30 = 900 ∧
    ((930 : Int) ≠ 900) := by
  refine ⟨by decide, by decide, by decide⟩

/-- C9 amended: whenever the refresh cycle observes a pulse count of at
least the 30-pulse threshold, the engine speed is recomputed as
(threshold x 1,000,000 / elapsed_microseconds) x observed_pulse_count
(reduced to the 32-bit and then 16-bit unsigned ranges where it is
stored), the elapsed-time reference is reset to the current time and the
pulse counter is zeroed; whenever the count is below the threshold, the
previously computed engine-speed value is left unchanged. -/
theorem rpm_recompute_behavior (st : SimState) (now analog5 : Nat) :
    (30 ≤ st.rpm_pulse_count →
      (updateSensorValues st now analog5).rpm
          = (30 * 1000 * 1000 / ((now % 4294967296 + 4294967296 - st.time_old) % 4294967296)
              * st.rpm_pulse_count) % 4294967296 % 65536 ∧
      (updateSensorValues st now analog5).eng_rpm
          = int16OfNat ((30 * 1000 * 1000
              / ((now % 4294967296 + 4294967296 - st.time_old) % 4294967296)
              * st.rpm_pulse_count) % 4294967296 % 65536) ∧
      (updateSensorValues st now analog5).time_old = now % 4294967296 ∧
      (updateSensorValues st now analog5).rpm_pulse_count = 0) ∧
    (st.rpm_pulse_count < 30 →
      (updateSensorValues st now analog5).eng_rpm = st.eng_rpm ∧
      (updateSensorValues st now analog5).rpm = st.rpm ∧
      (updateSensorValues st now analog5).time_old = st.time_old ∧
      (updateSensorValues st now analog5).rpm_pulse_count = st.rpm_pulse_count) := by
  constructor
  · intro h
    simp only [updateSensorValues]
    rw [if_pos (show st.rpm_pulse_count ≥ 30 from h)]
    exact ⟨rfl, rfl, rfl, rfl⟩
  · intro h
    have hlt : ¬(st.rpm_pulse_count ≥ 30) := by omega
    simp only [updateSensorValues]
    rw [if_neg hlt]
    exact ⟨rfl, rfl, rfl, rfl⟩

theorem rpm_recompute_behavior_witness :
    30 ≤ pulse30State.rpm_pulse_count ∧
    ((updateSensorValues pulse30State 2000000 0).rpm
        = (30 * 1000 * 1000
            / ((2000000 % 4294967296 + 4294967296 - pulse30State.time_old) % 4294967296)
            * pulse30State.rpm_pulse_count) % 4294967296 % 65536 ∧
      (updateSensorValues pulse30State 2000000 0).eng_rpm
        = int16OfNat ((30 * 1000 * 1000
            / ((2000000 % 4294967296 + 4294967296 - pulse30State.time_old) % 4294967296)
            * pulse30State.rpm_pulse_count) % 4294967296 % 65536) ∧
      (updateSensorValues pulse30State 2000000 0).time_old = 2000000 % 4294967296 ∧
      (updateSensorValues pulse30State 2000000 0).rpm_pulse_count = 0) :=
  ⟨by decide, (rpm_recompute_behavior pulse30State 2000000 0).1 (by decide)⟩

/-- C10: a Mode 21 request whose sub-identifier is none of "13", "14" and
"15" is not answered with silence: `replyOBD2` is still called and a data
reply tagged "61" echoing the sub-identifier is emitted, with the payload
value and byte width taken from the locals no branch assigned (the
uninitialised junk parameters of the model), so this uninitialised-read
branch is reachable at the public interface. -/
theorem mode21_unknown_pid_junk_reply (st : SimState) (pid : String) (jaf : Int) (jrb : Nat)
    (h13 : pid ≠ "13") (h14 : pid ≠ "14") (h15 : pid ≠ "15") :
    (processRequest st ("21" ++ pid) jaf jrb).2
      = ["61" ++ pid ++ toHexReply (doubleToULong jaf) jrb, PROMPT] := by
  have e : (processRequest st ("21" ++ pid) jaf jrb).2
      = [replyOBD2 MODE_21_RSP pid (doubleToULong (mode21Table st pid jaf jrb).1)
          (mode21Table st pid jaf jrb).2, PROMPT] := rfl
  rw [e]
  unfold mode21Table
  rw [if_neg h13, if_neg h14, if_neg h15]
  rfl

theorem mode21_unknown_pid_junk_reply_witness :
    (processRequest initialState ("21" ++ "99") 7 1).2
      = ["61" ++ "99" ++ toHexReply (doubleToULong 7) 1, PROMPT] :=
  mode21_unknown_pid_junk_reply initialState "99" 7 1 (by decide) (by decide) (by decide)

end OdbSim
